import Mathlib

set_option maxRecDepth 8000

/-!
Shallow embedding of `src/main.py` (mood-story HTTP backend) and proofs of
the specification claims about it.

Python strings are modeled as Lean `String` with character-level (`.data`)
operations mirroring Python's `str` methods; float scores are modeled as `ℚ`;
the document store (`database.py`, not part of `src/`) is modeled from the
spec as explicit state plus an outcome oracle for the store call.
-/

namespace MoodStory

/-- Python `str.lower()` (character-wise case mapping). -/
def pyLower (s : String) : String := String.mk (s.data.map Char.toLower)

/-- Python slicing `s[:n]`: the first `n` characters. -/
def pyTake (s : String) (n : Nat) : String := String.mk (s.data.take n)

/-- Python `str.strip()` on a character list: drop leading and trailing
whitespace. -/
def stripChars (s : List Char) : List Char :=
  ((s.dropWhile Char.isWhitespace).reverse.dropWhile Char.isWhitespace).reverse

/-- Python `str.strip()`. -/
def pyStrip (s : String) : String := String.mk (stripChars s.data)

/-- Python truthiness fallback `x or 0` applied to a numeric score
(`key=lambda x: x[1] or 0` in `main.py` line 119). -/
def orZero (q : ℚ) : ℚ := if q = 0 then 0 else q

/-- A value stored in a schemaless document (string field, expression-score
mapping, or a store-assigned object id). -/
inductive Value where
  | str : String → Value
  | oid : String → Value
  | expr : List (String × ℚ) → Value
deriving DecidableEq

/-- A schemaless document: ordered key/value pairs, as a Python dict literal. -/
abbrev Doc := List (String × Value)

/-- Python `str()` applied to a document value (used on the `_id` field,
which holds an ObjectId or string). -/
def valueText : Value → String
  | .str s => s
  | .oid s => s
  | .expr _ => ""

/-- `Expressions` pydantic model (`main.py` lines 19-26): seven optional
scores, each defaulting to 0.  Defined by the source but not referenced by
any endpoint: `StoryRequest.expressions` is a plain `Dict[str, float]`. -/
structure Expressions where
  neutral : Option ℚ := some 0
  happy : Option ℚ := some 0
  sad : Option ℚ := some 0
  angry : Option ℚ := some 0
  fearful : Option ℚ := some 0
  disgusted : Option ℚ := some 0
  surprised : Option ℚ := some 0
deriving DecidableEq

/-- `StoryRequest` request model (`main.py` lines 28-32).  The expression
scores are an arbitrary string-keyed mapping, kept in submission order. -/
structure StoryRequest where
  image_data : String
  mood : String
  expressions : List (String × ℚ)
  prompt_hint : Option String
deriving DecidableEq

/-- `StoryResponse` response model (`main.py` lines 34-38). -/
structure StoryResponse where
  id : String
  mood : String
  story : String
  illustration : String
deriving DecidableEq

/-- A FastAPI `HTTPException` carrying a status code and detail message. -/
structure HTTPException where
  status_code : Nat
  detail : String
deriving DecidableEq

/-- The persistence store state: the `"storyentry"` collection as a list of
(assigned id, document) pairs in insertion order. -/
structure Store where
  storyentry : List (String × Doc)
deriving DecidableEq

/-! ### Story templates (`main.py` lines 84-115)

Each Python template is a single line whose final characters are the
placeholder `\x7bhint\x7d`; `.format(hint=hint_text)` therefore appends the
hint text to the body, so each template is embedded as its body (everything
before the placeholder) and formatting is concatenation. -/

def happy_template : String :=
  "Sunlight spilled across the scene like a promise kept. With a grin that could start a parade, you stepped into a day that felt tailor‑made—small wins humming in the background, good news waiting just around the corner. "

def sad_template : String :=
  "The world moved softly, as if it knew to speak in whispers today. Even through the gray, there was kindness—warm tea, a gentle song, a friend who stays. Your heart carried rain, but it also carried flowers waiting to bloom. "

def angry_template : String :=
  "The air crackled—electric, decisive. Your fire didn’t destroy; it forged. Today you chose to build boundaries like bright lines on a map, turning heat into momentum and motion into change. "

def fearful_template : String :=
  "Shadows stretched long, but courage walked beside you, quiet and steady. Each careful step rewrote a small fear into a fearless line. Your breath became an anchor, and the unknown grew smaller. "

def disgusted_template : String :=
  "Clarity arrived like a clean breeze through a cluttered room. You saw what didn’t belong, and chose better—cleaner intentions, truer paths, a standard that honored your spirit. "

def surprised_template : String :=
  "A sudden spark—like confetti popped in slow motion. The unexpected turned into delight, and the story bent toward wonder. You followed curiosity and found a door you didn’t know you needed. "

def neutral_template : String :=
  "Balanced and unhurried, the day unfolded like neat pages in a journal. Quiet details glowed— a steady rhythm, a tidy list, a calm horizon. In the middle of ordinary, you found peace. "

/-- The `templates` dict of `_generate_rule_based_story`. -/
def templates : List (String × String) :=
  [("happy", happy_template), ("sad", sad_template), ("angry", angry_template),
   ("fearful", fearful_template), ("disgusted", disgusted_template),
   ("surprised", surprised_template), ("neutral", neutral_template)]

/-- `templates.get(mood, templates["neutral"])` (`main.py` line 116). -/
def template_for (mood : String) : String :=
  (templates.lookup mood).getD neutral_template

/-- `(mood or "neutral").lower()` (`main.py` line 83): an empty mood string
is falsy in Python and defaults to `"neutral"`. -/
def normMood (mood : String) : String :=
  pyLower (if mood = "" then "neutral" else mood)

/-- `"" if not hint else f"\n\nA note from you: \x7bhint.strip()\x7d"`
(`main.py` line 117): `not hint` is true exactly when the hint is `None` or
the empty string. -/
def hint_text : Option String → String
  | none => ""
  | some h => if h = "" then "" else "\n\nA note from you: " ++ pyStrip h

/-- `sorted(scores.items(), key=lambda x: x[1] or 0, reverse=True)`
(`main.py` line 119).  Python's sort is stable; with `reverse=True` entries
with equal keys keep their original relative order, which is exactly the
stable insertion sort under the reflexive descending relation. -/
def sorted_scores (scores : List (String × ℚ)) : List (String × ℚ) :=
  List.insertionSort (fun a b => orZero b.2 ≤ orZero a.2) scores

/-- `", ".join([k for k, v in sorted_scores[:3]]) if sorted_scores else mood`
(`main.py` line 120). -/
def tone (mood_n : String) (scores : List (String × ℚ)) : String :=
  if sorted_scores scores = [] then mood_n
  else String.intercalate ", " (((sorted_scores scores).take 3).map Prod.fst)

/-- `f"\n\nMood palette today: \x7btone\x7d."` (`main.py` line 121). -/
def footer (mood_n : String) (scores : List (String × ℚ)) : String :=
  "\n\nMood palette today: " ++ tone mood_n scores ++ "."

/-- `_generate_rule_based_story` (`main.py` lines 82-122):
`(base.format(hint=hint_text) + footer).strip()`. -/
def _generate_rule_based_story (mood : String) (hint : Option String)
    (scores : List (String × ℚ)) : String :=
  pyStrip (template_for (normMood mood) ++ hint_text hint
    ++ footer (normMood mood) scores)

/-- The `mood_map` illustration table (`main.py` lines 133-141). -/
def mood_map : List (String × String) :=
  [("happy", "sunny"), ("sad", "rainy"), ("angry", "flame"),
   ("fearful", "moon"), ("disgusted", "leaf"), ("surprised", "spark"),
   ("neutral", "cloud")]

/-- `mood_map.get(req.mood.lower(), "cloud")` (`main.py` line 142). -/
def illustration_for (mood : String) : String :=
  (mood_map.lookup (pyLower mood)).getD "cloud"

/-- The `data_to_save` dict literal of `generate_story`
(`main.py` lines 146-152). -/
def data_to_save (req : StoryRequest) : Doc :=
  [("image_data", Value.str req.image_data),
   ("mood", Value.str req.mood),
   ("expressions", Value.expr req.expressions),
   ("story", Value.str
      (_generate_rule_based_story req.mood req.prompt_hint req.expressions)),
   ("illustration", Value.str (illustration_for req.mood))]

/-- `POST /api/generate-story` (`main.py` lines 125-157).

Modelled from the spec: `create_document` (from `database.py`, which is not
under `src/`) inserts one document into the named collection and returns a
newly assigned opaque identifier, with any store error propagating to the
caller; the `db` argument is the outcome of that call (`Except.ok id` for a
successful insert assigning `id`, `Except.error e` when the store raises an
exception whose text is `e`). -/
def generate_story (req : StoryRequest) (st : Store)
    (db : Except String String) : Except HTTPException StoryResponse × Store :=
  if "data:image/".data <+: req.image_data.data then
    match db with
    | .error e =>
        (Except.error ⟨500, "Failed to store story: " ++ pyTake e 120⟩, st)
    | .ok inserted_id =>
        (Except.ok
          ⟨inserted_id, req.mood,
           _generate_rule_based_story req.mood req.prompt_hint req.expressions,
           illustration_for req.mood⟩,
         ⟨st.storyentry ++ [(inserted_id, data_to_save req)]⟩)
  else
    (Except.error
      ⟨400, "image_data must be a data URL starting with data:image/"⟩, st)

/-- The `_id` → `id` sanitizing step of `list_stories`
(`main.py` lines 165-167): `if "_id" in d: d["id"] = str(d.pop("_id"))`. -/
def sanitize (d : Doc) : Doc :=
  match List.lookup "_id" d with
  | some v => (d.eraseP (fun kv => kv.1 == "_id")) ++ [("id", Value.str (valueText v))]
  | none => d

/-- `GET /api/stories` (`main.py` lines 160-170).

Modelled from the spec: `get_documents` (from `database.py`, not under
`src/`) returns up to `limit` matching documents or raises; `getDocs` is
that call's outcome as a function of the limit passed to it. -/
def list_stories (getDocs : Nat → Except String (List Doc)) (lim : Nat) :
    Except HTTPException (List Doc) :=
  match getDocs lim with
  | .error e => Except.error ⟨500, "Failed to fetch stories: " ++ pyTake e 120⟩
  | .ok docs => Except.ok (docs.map sanitize)

/-- A handle on the `db` object of `database.py`, for the diagnostic
endpoint.  Modelled from the spec: `name` is the database name when the
object has one (`hasattr(db, "name")`), and `list_collection_names` is the
outcome of listing collection names (which may raise). -/
structure DBHandle where
  name : Option String
  list_collection_names : Except String (List String)

/-- The response body of `GET /test` (`main.py` lines 54-61). -/
structure TestResponse where
  backend : String
  database : String
  database_url : Option String
  database_name : Option String
  connection_status : String
  collections : List String
deriving DecidableEq

/-- `GET /test` (`main.py` lines 51-79).  `importDb` is the outcome of
`from database import db` (the import may raise, and `db` may be `None`);
`databaseUrl` is `os.getenv("DATABASE_URL")`, whose Python truthiness is
false for both absent and empty values. -/
def test_database (importDb : Except String (Option DBHandle))
    (databaseUrl : Option String) : TestResponse :=
  match importDb with
  | .error e =>
      ⟨"✅ Running", "❌ Error: " ++ pyTake e 50, none, none, "Not Connected", []⟩
  | .ok none =>
      ⟨"✅ Running", "⚠️  Available but not initialized", none, none,
       "Not Connected", []⟩
  | .ok (some db) =>
      let url_status := if databaseUrl.getD "" = "" then "❌ Not Set" else "✅ Set"
      let name_status := db.name.getD "✅ Connected"
      match db.list_collection_names with
      | .ok collections =>
          ⟨"✅ Running", "✅ Connected & Working", some url_status,
           some name_status, "Connected", collections.take 10⟩
      | .error e =>
          ⟨"✅ Running", "⚠️  Connected but Error: " ++ pyTake e 50,
           some url_status, some name_status, "Connected", []⟩

/-! ### Helper lemmas -/

theorem orZero_eq (q : ℚ) : orZero q = q := by
  unfold orZero
  split <;> simp_all

/-- Stripping leaves a string untouched when its first and last characters
are not whitespace. -/
theorem stripChars_sandwich (a b : Char) (mid : List Char)
    (ha : a.isWhitespace = false) (hb : b.isWhitespace = false) :
    stripChars (a :: (mid ++ [b])) = a :: (mid ++ [b]) := by
  unfold stripChars
  rw [List.dropWhile_cons, if_neg (by simp [ha])]
  rw [show (a :: (mid ++ [b])).reverse = b :: (mid.reverse ++ [a]) by simp]
  rw [List.dropWhile_cons, if_neg (by simp [hb])]
  simp

/-- `templates.get` always yields one of the seven fixed templates. -/
theorem template_cases (m : String) :
    template_for m = happy_template ∨ template_for m = sad_template ∨
    template_for m = angry_template ∨ template_for m = fearful_template ∨
    template_for m = disgusted_template ∨ template_for m = surprised_template ∨
    template_for m = neutral_template := by
  by_cases h1 : m = "happy"
  · subst h1; left; rfl
  by_cases h2 : m = "sad"
  · subst h2; right; left; rfl
  by_cases h3 : m = "angry"
  · subst h3; right; right; left; rfl
  by_cases h4 : m = "fearful"
  · subst h4; right; right; right; left; rfl
  by_cases h5 : m = "disgusted"
  · subst h5; right; right; right; right; left; rfl
  by_cases h6 : m = "surprised"
  · subst h6; right; right; right; right; right; left; rfl
  by_cases h7 : m = "neutral"
  · subst h7; right; right; right; right; right; right; rfl
  · right; right; right; right; right; right
    simp [template_for, templates, List.lookup, beq_false_of_ne h1,
      beq_false_of_ne h2, beq_false_of_ne h3, beq_false_of_ne h4,
      beq_false_of_ne h5, beq_false_of_ne h6, beq_false_of_ne h7]

/-- The lookup of an unknown mood in `templates` falls back to the neutral
template. -/
theorem template_for_unknown (m : String)
    (h : m ∉ ["happy", "sad", "angry", "fearful", "disgusted", "surprised",
      "neutral"]) : template_for m = neutral_template := by
  simp only [List.mem_cons, List.not_mem_nil, or_false, not_or] at h
  obtain ⟨h1, h2, h3, h4, h5, h6, h7⟩ := h
  simp [template_for, templates, List.lookup, beq_false_of_ne h1,
    beq_false_of_ne h2, beq_false_of_ne h3, beq_false_of_ne h4,
    beq_false_of_ne h5, beq_false_of_ne h6, beq_false_of_ne h7]

/-- Every template body starts with a non-whitespace character. -/
theorem template_head (m : String) :
    ∃ c rest, (template_for m).data = c :: rest ∧ c.isWhitespace = false := by
  rcases template_cases m with h | h | h | h | h | h | h <;> rw [h]
  · exact ⟨'S', happy_template.data.tail, by decide, by decide⟩
  · exact ⟨'T', sad_template.data.tail, by decide, by decide⟩
  · exact ⟨'T', angry_template.data.tail, by decide, by decide⟩
  · exact ⟨'S', fearful_template.data.tail, by decide, by decide⟩
  · exact ⟨'C', disgusted_template.data.tail, by decide, by decide⟩
  · exact ⟨'A', surprised_template.data.tail, by decide, by decide⟩
  · exact ⟨'B', neutral_template.data.tail, by decide, by decide⟩

/-- The generated story is exactly the template body, the hint text and the
footer: the surrounding `strip()` removes nothing because the story starts
with a template letter and ends with the footer's period. -/
theorem story_data (mood : String) (hint : Option String)
    (scores : List (String × ℚ)) :
    (_generate_rule_based_story mood hint scores).data
      = (template_for (normMood mood)).data ++ (hint_text hint).data
          ++ (footer (normMood mood) scores).data := by
  obtain ⟨c, rest, hc, hw⟩ := template_head (normMood mood)
  have hfoot : (footer (normMood mood) scores).data
      = "\n\nMood palette today: ".data ++ (tone (normMood mood) scores).data
          ++ ['.'] := by
    unfold footer
    rw [String.data_append, String.data_append]
  have hgen : (_generate_rule_based_story mood hint scores).data
      = stripChars ((template_for (normMood mood)).data ++ (hint_text hint).data
          ++ (footer (normMood mood) scores).data) := by
    unfold _generate_rule_based_story pyStrip
    rw [String.data_append, String.data_append]
  rw [hgen, hfoot, hc]
  have hshape :
      c :: rest ++ (hint_text hint).data
          ++ ("\n\nMood palette today: ".data ++ (tone (normMood mood) scores).data
              ++ ['.'])
        = c :: ((rest ++ (hint_text hint).data ++ "\n\nMood palette today: ".data
              ++ (tone (normMood mood) scores).data) ++ ['.']) := by
    simp
  rw [hshape, stripChars_sandwich c '.' _ hw (by decide)]

/-! ### Claim theorems -/

/-- C2: every request to POST /api/generate-story whose `image_data` does not
start with `"data:image/"` is rejected with a 400 client error and the
persistence store is unchanged. -/
theorem C2_invalid_image_rejected (req : StoryRequest) (st : Store)
    (db : Except String String)
    (h : ¬ "data:image/".data <+: req.image_data.data) :
    generate_story req st db
      = (Except.error
          ⟨400, "image_data must be a data URL starting with data:image/"⟩,
         st) := by
  unfold generate_story
  rw [if_neg h]

theorem C2_invalid_image_rejected_witness :
    generate_story ⟨"hello", "happy", [], none⟩ ⟨[]⟩ (Except.ok "id1")
      = (Except.error
          ⟨400, "image_data must be a data URL starting with data:image/"⟩,
         ⟨[]⟩) :=
  C2_invalid_image_rejected ⟨"hello", "happy", [], none⟩ ⟨[]⟩ (Except.ok "id1")
    (by decide)

/-- C4: for each mood in the fixed set (after lower-casing), generate-story
returns the paired illustration key of the static table; for any mood outside
the set it returns `"cloud"` and the story uses the neutral template. -/
theorem C4_illustration_table (mood : String) :
    (pyLower mood = "happy" → illustration_for mood = "sunny")
    ∧ (pyLower mood = "sad" → illustration_for mood = "rainy")
    ∧ (pyLower mood = "angry" → illustration_for mood = "flame")
    ∧ (pyLower mood = "fearful" → illustration_for mood = "moon")
    ∧ (pyLower mood = "disgusted" → illustration_for mood = "leaf")
    ∧ (pyLower mood = "surprised" → illustration_for mood = "spark")
    ∧ (pyLower mood = "neutral" → illustration_for mood = "cloud")
    ∧ (pyLower mood ∉ ["happy", "sad", "angry", "fearful", "disgusted",
          "surprised", "neutral"] →
        illustration_for mood = "cloud"
        ∧ template_for (normMood mood) = neutral_template) := by
  refine ⟨?_, ?_, ?_, ?_, ?_, ?_, ?_, ?_⟩
  · intro h; unfold illustration_for; rw [h]; rfl
  · intro h; unfold illustration_for; rw [h]; rfl
  · intro h; unfold illustration_for; rw [h]; rfl
  · intro h; unfold illustration_for; rw [h]; rfl
  · intro h; unfold illustration_for; rw [h]; rfl
  · intro h; unfold illustration_for; rw [h]; rfl
  · intro h; unfold illustration_for; rw [h]; rfl
  · intro h
    have hmem := h
    simp only [List.mem_cons, List.not_mem_nil, or_false, not_or] at hmem
    obtain ⟨n1, n2, n3, n4, n5, n6, n7⟩ := hmem
    constructor
    · simp [illustration_for, mood_map, List.lookup, beq_false_of_ne n1,
        beq_false_of_ne n2, beq_false_of_ne n3, beq_false_of_ne n4,
        beq_false_of_ne n5, beq_false_of_ne n6, beq_false_of_ne n7]
    · by_cases hm : mood = ""
      · subst hm; rfl
      · have hnorm : normMood mood = pyLower mood := by
          unfold normMood; rw [if_neg hm]
        rw [hnorm]
        exact template_for_unknown (pyLower mood) h

theorem C4_illustration_table_witness :
    illustration_for "HaPPy" = "sunny"
    ∧ illustration_for "confUSED" = "cloud"
    ∧ template_for (normMood "confUSED") = neutral_template :=
  ⟨(C4_illustration_table "HaPPy").1 (by decide),
   ((C4_illustration_table "confUSED").2.2.2.2.2.2.2 (by decide)).1,
   ((C4_illustration_table "confUSED").2.2.2.2.2.2.2 (by decide)).2⟩

/-- C1 (amended): a valid request whose store insert succeeds persists
exactly one document to `"storyentry"`, holding the submitted `image_data`,
`mood` and `expressions` (but not the `prompt_hint`) together with the
generated story and illustration key, and the response id is the identifier
assigned to that document. -/
theorem C1_persist_amended (req : StoryRequest) (st : Store) (newId : String)
    (hvalid : "data:image/".data <+: req.image_data.data) :
    (generate_story req st (Except.ok newId)).2.storyentry
        = st.storyentry ++ [(newId, data_to_save req)]
    ∧ (generate_story req st (Except.ok newId)).1
        = Except.ok
            ⟨newId, req.mood,
             _generate_rule_based_story req.mood req.prompt_hint
               req.expressions,
             illustration_for req.mood⟩
    ∧ (data_to_save req).map Prod.fst
        = ["image_data", "mood", "expressions", "story", "illustration"]
    ∧ List.lookup "image_data" (data_to_save req)
        = some (Value.str req.image_data)
    ∧ List.lookup "mood" (data_to_save req) = some (Value.str req.mood)
    ∧ List.lookup "expressions" (data_to_save req)
        = some (Value.expr req.expressions)
    ∧ List.lookup "story" (data_to_save req)
        = some (Value.str
            (_generate_rule_based_story req.mood req.prompt_hint
              req.expressions))
    ∧ List.lookup "illustration" (data_to_save req)
        = some (Value.str (illustration_for req.mood)) := by
  unfold generate_story
  rw [if_pos hvalid]
  exact ⟨rfl, rfl, rfl, rfl, rfl, rfl, rfl, rfl⟩

theorem C1_persist_amended_witness :
    (generate_story
        ⟨"data:image/png;base64,AAA", "happy", [("happy", mkRat 9 10)], some "x"⟩
        ⟨[]⟩ (Except.ok "abc123")).2.storyentry
      = [] ++ [("abc123",
          data_to_save
            ⟨"data:image/png;base64,AAA", "happy", [("happy", mkRat 9 10)],
             some "x"⟩)] :=
  (C1_persist_amended
    ⟨"data:image/png;base64,AAA", "happy", [("happy", mkRat 9 10)], some "x"⟩
    ⟨[]⟩ "abc123" (by decide)).1

/-- C1 is false as stated: the submitted `prompt_hint` is not among the
persisted fields.  A request submitting `prompt_hint = "dragons"` persists
exactly one document, and that document has no `prompt_hint` key. -/
theorem C1_counterexample :
    (StoryRequest.mk "data:image/png;base64,AAA" "happy"
        [("happy", mkRat 9 10)] (some "dragons")).prompt_hint = some "dragons"
    ∧ ((generate_story
          (StoryRequest.mk "data:image/png;base64,AAA" "happy"
            [("happy", mkRat 9 10)] (some "dragons"))
          ⟨[]⟩ (Except.ok "id1")).2.storyentry.map
        (fun kv => List.lookup "prompt_hint" kv.2)) = [none] := by
  constructor
  · rfl
  · decide

/-- C10: the mood field of the response and of the persisted document equals
the submitted mood verbatim (case and whitespace preserved); lower-casing
enters only the illustration-key lookup (and template selection). -/
theorem C10_mood_preserved (req : StoryRequest) (st : Store) (newId : String)
    (hvalid : "data:image/".data <+: req.image_data.data) :
    (∀ resp, (generate_story req st (Except.ok newId)).1 = Except.ok resp →
        resp.mood = req.mood)
    ∧ List.lookup "mood" (data_to_save req) = some (Value.str req.mood)
    ∧ (∀ resp, (generate_story req st (Except.ok newId)).1 = Except.ok resp →
        resp.illustration = (mood_map.lookup (pyLower req.mood)).getD "cloud") := by
  have hresp : (generate_story req st (Except.ok newId)).1
      = Except.ok
          ⟨newId, req.mood,
           _generate_rule_based_story req.mood req.prompt_hint req.expressions,
           illustration_for req.mood⟩ := by
    unfold generate_story
    rw [if_pos hvalid]
  refine ⟨?_, rfl, ?_⟩
  · intro resp h
    rw [hresp] at h
    injection h with h2
    subst h2
    rfl
  · intro resp h
    rw [hresp] at h
    injection h with h2
    subst h2
    rfl

theorem C10_mood_preserved_witness :
    List.lookup "mood"
        (data_to_save ⟨"data:image/jpeg;base64,Zm9v", "HapPy ", [], none⟩)
      = some (Value.str "HapPy ") :=
  (C10_mood_preserved ⟨"data:image/jpeg;base64,Zm9v", "HapPy ", [], none⟩
    ⟨[]⟩ "id9" (by decide)).2.1

/-- The footer string split into its character-level parts. -/
theorem footer_data (mn : String) (scores : List (String × ℚ)) :
    (footer mn scores).data
      = "\n\nMood palette today: ".data ++ (tone mn scores).data ++ ['.'] := by
  unfold footer
  rw [String.data_append, String.data_append]

/-- C5: the story text always carries the footer line
`"Mood palette today: "` followed by at most three comma-separated expression
names — the keys with the highest scores, sorted by value descending — and
by the normalized mood name alone when the mapping is empty. -/
theorem C5_footer_line (mood : String) (hint : Option String)
    (scores : List (String × ℚ)) :
    (∃ pre : List Char,
        (_generate_rule_based_story mood hint scores).data
          = pre ++ ("Mood palette today: "
              ++ tone (normMood mood) scores ++ ".").data)
    ∧ (scores = [] → tone (normMood mood) scores = normMood mood)
    ∧ (scores ≠ [] →
        tone (normMood mood) scores
            = String.intercalate ", "
                (((sorted_scores scores).take 3).map Prod.fst)
          ∧ (((sorted_scores scores).take 3).map Prod.fst).length ≤ 3
          ∧ List.Sorted (fun a b : String × ℚ => b.2 ≤ a.2)
              (sorted_scores scores)
          ∧ (sorted_scores scores).Perm scores
          ∧ ∀ p ∈ (sorted_scores scores).take 3,
              ∀ q ∈ (sorted_scores scores).drop 3, q.2 ≤ p.2) := by
  refine ⟨?_, ?_, ?_⟩
  · refine ⟨(template_for (normMood mood)).data ++ (hint_text hint).data
      ++ ['\n', '\n'], ?_⟩
    rw [story_data, footer_data, String.data_append, String.data_append]
    have hpal : ("\n\nMood palette today: ").data
        = '\n' :: '\n' :: "Mood palette today: ".data := by decide
    have hdot : (".").data = ['.'] := by decide
    rw [hpal, hdot]
    simp
  · intro h
    subst h
    rfl
  · intro hne
    have hperm : (sorted_scores scores).Perm scores :=
      List.perm_insertionSort _ _
    have hsne : sorted_scores scores ≠ [] := by
      intro h0
      apply hne
      rw [h0] at hperm
      exact hperm.symm.eq_nil
    haveI instTot :
        IsTotal (String × ℚ) (fun a b => orZero b.2 ≤ orZero a.2) :=
      ⟨fun a b => le_total (orZero b.2) (orZero a.2)⟩
    haveI instTrans :
        IsTrans (String × ℚ) (fun a b => orZero b.2 ≤ orZero a.2) :=
      ⟨fun _ _ _ h1 h2 => le_trans h2 h1⟩
    have hsorted :
        List.Pairwise (fun a b : String × ℚ => b.2 ≤ a.2)
          (sorted_scores scores) := by
      have h0 := List.sorted_insertionSort
        (fun a b : String × ℚ => orZero b.2 ≤ orZero a.2) scores
      exact h0.imp (fun {a b} hab => by rwa [orZero_eq, orZero_eq] at hab)
    refine ⟨?_, ?_, hsorted, hperm, ?_⟩
    · unfold tone
      rw [if_neg hsne]
    · rw [List.length_map, List.length_take]
      exact inf_le_left
    · have hp := hsorted
      rw [← List.take_append_drop 3 (sorted_scores scores)] at hp
      have hsplit := (List.pairwise_append.mp hp).2.2
      intro p hpmem q hqmem
      exact hsplit p hpmem q hqmem

theorem C5_footer_line_witness :
    tone (normMood "happy") [] = normMood "happy"
    ∧ tone (normMood "zen") [("a", mkRat 1 2)]
        = String.intercalate ", "
            (((sorted_scores [("a", mkRat 1 2)]).take 3).map Prod.fst) :=
  ⟨(C5_footer_line "happy" none []).2.1 rfl,
   ((C5_footer_line "zen" none [("a", mkRat 1 2)]).2.2 (by decide)).1⟩

/-- C6: on mood "happy" with expressions happy↦0.9, neutral↦0.05, sad↦0.05
and no hint, the story begins with the happy template text, the footer lists
"happy, neutral, sad" in descending-score order, and the illustration key is
"sunny". -/
theorem C6_happy_example :
    _generate_rule_based_story "happy" none
        [("happy", mkRat 9 10), ("neutral", mkRat 1 20), ("sad", mkRat 1 20)]
      = happy_template ++ "\n\nMood palette today: happy, neutral, sad."
    ∧ happy_template.data <+:
        (_generate_rule_based_story "happy" none
          [("happy", mkRat 9 10), ("neutral", mkRat 1 20),
           ("sad", mkRat 1 20)]).data
    ∧ illustration_for "happy" = "sunny" :=
  ⟨by decide, by decide, by decide⟩

/-- C3 is false as stated: a whitespace-only hint is blank (it trims to the
empty string), yet the generated story still contains an
"A note from you:" section, because the code tests Python truthiness
(`not hint`) rather than blankness. -/
theorem C3_counterexample :
    pyStrip " " = ""
    ∧ "A note from you:".data <:+:
        (_generate_rule_based_story "happy" (some " ")
          [("happy", mkRat 1 1)]).data := by
  constructor
  · rfl
  · decide

/-- C3 (amended): the trimmed hint appears verbatim in an
"A note from you:" section whenever the hint is provided and non-empty; when
the hint is `None` or the empty string (and the phrase does not occur in the
chosen template or footer), no "A note from you:" section appears.  A
whitespace-only hint, although blank, still produces the section. -/
theorem C3_hint_amended (mood : String) (hint : Option String)
    (scores : List (String × ℚ)) :
    (∀ h, hint = some h → h ≠ "" →
        ("A note from you: " ++ pyStrip h).data <:+:
          (_generate_rule_based_story mood hint scores).data)
    ∧ ((hint = none ∨ hint = some "") →
        ¬ ("A note from you:".data <:+:
            ((template_for (normMood mood)).data
              ++ (footer (normMood mood) scores).data)) →
        ¬ ("A note from you:".data <:+:
            (_generate_rule_based_story mood hint scores).data)) := by
  constructor
  · intro h hh hne
    subst hh
    rw [story_data]
    have h1 : hint_text (some h) = "\n\nA note from you: " ++ pyStrip h :=
      if_neg hne
    have hht : (hint_text (some h)).data
        = '\n' :: '\n' :: ("A note from you: " ++ pyStrip h).data := by
      rw [h1, String.data_append, String.data_append]
      have h2 : ("\n\nA note from you: ").data
          = '\n' :: '\n' :: "A note from you: ".data := by decide
      rw [h2]
      simp
    rw [hht]
    refine ⟨(template_for (normMood mood)).data ++ ['\n', '\n'],
      (footer (normMood mood) scores).data, ?_⟩
    simp
  · intro hblank hnotin hcontra
    apply hnotin
    rw [story_data] at hcontra
    have hempty : (hint_text hint).data = [] := by
      rcases hblank with h | h <;> subst h <;> rfl
    rw [hempty] at hcontra
    simpa using hcontra

theorem C3_hint_amended_witness :
    ("A note from you: " ++ pyStrip "dragon").data <:+:
      (_generate_rule_based_story "happy" (some "dragon") []).data
    ∧ ¬ ("A note from you:".data <:+:
        (_generate_rule_based_story "sad" none [("x", mkRat 1 2)]).data) :=
  ⟨(C3_hint_amended "happy" (some "dragon") []).1 "dragon" rfl (by decide),
   (C3_hint_amended "sad" none [("x", mkRat 1 2)]).2 (Or.inl rfl) (by decide)⟩

/-- C7 is false as stated: the 500 detail message is the fixed prefix
`"Failed to store story: "` plus the store error truncated to 120
characters, so for a long store error the detail itself exceeds 120
characters (here: 143). -/
theorem C7_counterexample :
    (generate_story ⟨"data:image/png;base64,AAA", "happy", [], none⟩ ⟨[]⟩
        (Except.error (String.mk (List.replicate 121 'x')))).1
      = Except.error ⟨500,
          "Failed to store story: " ++ String.mk (List.replicate 120 'x')⟩
    ∧ 120 < ("Failed to store story: "
        ++ String.mk (List.replicate 120 'x')).data.length := by
  constructor
  · rfl
  · decide

/-- C7 (amended): when the store call fails, both endpoints answer 500 with
a detail message equal to a fixed prefix plus the store error message
truncated to at most 120 characters (and the store is unchanged). -/
theorem C7_truncation_amended (req : StoryRequest) (st : Store) (e : String)
    (hvalid : "data:image/".data <+: req.image_data.data)
    (getDocs : Nat → Except String (List Doc)) (lim : Nat)
    (hg : getDocs lim = Except.error e) :
    (generate_story req st (Except.error e)).1
        = Except.error ⟨500, "Failed to store story: " ++ pyTake e 120⟩
    ∧ (generate_story req st (Except.error e)).2 = st
    ∧ list_stories getDocs lim
        = Except.error ⟨500, "Failed to fetch stories: " ++ pyTake e 120⟩
    ∧ (pyTake e 120).data.length ≤ 120 := by
  refine ⟨?_, ?_, ?_, ?_⟩
  · unfold generate_story
    rw [if_pos hvalid]
  · unfold generate_story
    rw [if_pos hvalid]
  · unfold list_stories
    rw [hg]
  · show (e.data.take 120).length ≤ 120
    rw [List.length_take]
    exact inf_le_left

theorem C7_truncation_amended_witness :
    (generate_story ⟨"data:image/gif;base64,QQ==", "sad", [], none⟩ ⟨[]⟩
        (Except.error "boom")).1
      = Except.error ⟨500, "Failed to store story: " ++ pyTake "boom" 120⟩
    ∧ (generate_story ⟨"data:image/gif;base64,QQ==", "sad", [], none⟩ ⟨[]⟩
        (Except.error "boom")).2 = ⟨[]⟩
    ∧ list_stories (fun _ => Except.error "boom") 10
        = Except.error ⟨500, "Failed to fetch stories: " ++ pyTake "boom" 120⟩
    ∧ (pyTake "boom" 120).data.length ≤ 120 :=
  C7_truncation_amended ⟨"data:image/gif;base64,QQ==", "sad", [], none⟩ ⟨[]⟩
    "boom" (by decide) (fun _ => Except.error "boom") 10 rfl

/-- C8: GET /test never raises: every database state (failed import, absent
connection string, uninitialized handle, failing collection listing) is
encoded as a descriptive status string inside the response body — the
embedding is a total function into the response record — and the collections
field holds at most 10 names. -/
theorem C8_test_endpoint (importDb : Except String (Option DBHandle))
    (url : Option String) :
    (test_database importDb url).collections.length ≤ 10
    ∧ (∀ e, importDb = Except.error e →
        (test_database importDb url).database = "❌ Error: " ++ pyTake e 50)
    ∧ (importDb = Except.ok none →
        (test_database importDb url).database
          = "⚠️  Available but not initialized")
    ∧ (∀ db e, importDb = Except.ok (some db) →
        db.list_collection_names = Except.error e →
        (test_database importDb url).database
          = "⚠️  Connected but Error: " ++ pyTake e 50)
    ∧ (∀ db, importDb = Except.ok (some db) → url = none →
        (test_database importDb url).database_url = some "❌ Not Set")
    ∧ (∀ db cols, importDb = Except.ok (some db) →
        db.list_collection_names = Except.ok cols →
        (test_database importDb url).collections = cols.take 10
        ∧ (test_database importDb url).database = "✅ Connected & Working") := by
  refine ⟨?_, ?_, ?_, ?_, ?_, ?_⟩
  · rcases importDb with e | db
    · simp [test_database]
    · rcases db with _ | db
      · simp [test_database]
      · rcases hl : db.list_collection_names with e | cols
        · simp [test_database, hl]
        · simp [test_database, hl, List.length_take]
  · intro e h
    subst h
    rfl
  · intro h
    subst h
    rfl
  · intro db e h hl
    subst h
    simp [test_database, hl]
  · intro db h hu
    subst h
    subst hu
    rcases hl : db.list_collection_names with e | cols <;>
      simp [test_database, hl]
  · intro db cols h hl
    subst h
    constructor <;> simp [test_database, hl]

theorem C8_test_endpoint_witness :
    (test_database (Except.error "no database module") none).collections.length
        ≤ 10
    ∧ (test_database (Except.error "no database module") none).database
        = "❌ Error: " ++ pyTake "no database module" 50
    ∧ (test_database (Except.ok (some ⟨some "mydb", Except.ok ["a", "b"]⟩))
          none).database_url = some "❌ Not Set" :=
  ⟨(C8_test_endpoint (Except.error "no database module") none).1,
   (C8_test_endpoint (Except.error "no database module") none).2.1
     "no database module" rfl,
   (C8_test_endpoint (Except.ok (some ⟨some "mydb", Except.ok ["a", "b"]⟩))
       none).2.2.2.2.1 ⟨some "mydb", Except.ok ["a", "b"]⟩ rfl rfl⟩

/-- C9 is false as stated: the endpoint's request schema is a plain
string-keyed mapping (the seven-key `Expressions` model is never used), so a
request whose expressions carry the key "zany" is accepted and stored with
that key. -/
theorem C9_counterexample :
    (generate_story ⟨"data:image/png;base64,AAA", "happy",
        [("zany", mkRat 1 1)], none⟩ ⟨[]⟩ (Except.ok "id1")).1.isOk = true
    ∧ ((generate_story ⟨"data:image/png;base64,AAA", "happy",
          [("zany", mkRat 1 1)], none⟩ ⟨[]⟩ (Except.ok "id1")).2.storyentry.map
        (fun kv => List.lookup "expressions" kv.2))
        = [some (Value.expr [("zany", mkRat 1 1)])]
    ∧ "zany" ∉ ["neutral", "happy", "sad", "angry", "fearful", "disgusted",
        "surprised"] := by
  refine ⟨?_, ?_, ?_⟩ <;> decide

/-- C9 (amended): accepted requests persist their expression mapping exactly
as submitted — arbitrary keys, no seven-key restriction, no defaulting —
since `StoryRequest.expressions` is `Dict[str, float]` and the seven-field
`Expressions` model is not used by the endpoint. -/
theorem C9_expressions_amended (req : StoryRequest) (st : Store)
    (newId : String)
    (hvalid : "data:image/".data <+: req.image_data.data) :
    List.lookup "expressions" (data_to_save req)
        = some (Value.expr req.expressions)
    ∧ (generate_story req st (Except.ok newId)).2.storyentry
        = st.storyentry ++ [(newId, data_to_save req)] := by
  constructor
  · rfl
  · unfold generate_story
    rw [if_pos hvalid]

theorem C9_expressions_amended_witness :
    List.lookup "expressions"
        (data_to_save ⟨"data:image/png;base64,AAA", "happy",
          [("zany", mkRat 1 1)], none⟩)
      = some (Value.expr [("zany", mkRat 1 1)]) :=
  (C9_expressions_amended ⟨"data:image/png;base64,AAA", "happy",
    [("zany", mkRat 1 1)], none⟩ ⟨[]⟩ "id1" (by decide)).1

end MoodStory
